import Mathlib

/-!
Verification of the invoice extraction-and-naming pipeline of `parser.py`
(`invfrog`).  The definitions below are a shallow embedding of the Python
source: Python strings are `String`/`List Char`, `None`-able values are
`Option String`, dictionaries are association lists, and the filesystem
(for collision resolution) is a fixed list of existing paths.
-/

set_option maxRecDepth 10000

namespace Invfrog

/-! ## Basic Python-string helpers -/

/-- Python whitespace characters recognised by `str.strip` and the regex
class `\s` (ASCII fragment). -/
def isPySpace (c : Char) : Bool :=
  c = ' ' || c = '\t' || c = '\n' || c = '\r' || c = '\x0b' || c = '\x0c'

/-- `str.strip()`: remove leading and trailing whitespace. -/
def pyStrip (cs : List Char) : List Char :=
  ((cs.dropWhile isPySpace).reverse.dropWhile isPySpace).reverse

/-- `", ".join`-style joining (`str.join`). -/
def joinWith (sep : String) : List String → String
  | [] => ""
  | [s] => s
  | s :: t :: rest => s ++ sep ++ joinWith sep (t :: rest)

/-- `text.replace('\r', '\n')` (single-character replacement, line 58). -/
def pyReplaceCR (cs : List Char) : List Char :=
  cs.map (fun c => if c = '\r' then '\n' else c)

/-- `text.split('\n')`: split on newlines, keeping empty chunks. -/
def splitLines : List Char → List (List Char)
  | [] => [[]]
  | c :: rest =>
    if c = '\n' then [] :: splitLines rest
    else
      match splitLines rest with
      | l :: ls => (c :: l) :: ls
      | [] => [[c]]

/-- Generic splitting on a separator character (used for `strptime`
formats whose literal separator is a single character). -/
def splitSep (sep : Char) : List Char → List (List Char)
  | [] => [[]]
  | c :: rest =>
    if c = sep then [] :: splitSep sep rest
    else
      match splitSep sep rest with
      | l :: ls => (c :: l) :: ls
      | [] => [[c]]

/-- Substring test, modelling Python's `needle in hay`. -/
def listContains (needle : List Char) : List Char → Bool
  | [] => needle.isEmpty
  | c :: t => needle.isPrefixOf (c :: t) || listContains needle t

/-- Case-insensitive match of a (lowercase) literal pattern against a
prefix of the input; returns the rest on success. -/
def stripLitCI : List Char → List Char → Option (List Char)
  | [], cs => some cs
  | _ :: _, [] => none
  | p :: ps, c :: cs => if c.toLower = p then stripLitCI ps cs else none

/-- `posixpath.join` of one extra component. -/
def pyJoin2 (a b : String) : String :=
  match b.toList with
  | '/' :: _ => b
  | _ =>
    if a = "" then a ++ b
    else
      match a.toList.getLast? with
      | some '/' => a ++ b
      | _ => a ++ "/" ++ b

/-- `os.path.join(base, *rest)` (POSIX semantics). -/
def pyJoin (base : String) (rest : List String) : String :=
  rest.foldl pyJoin2 base

/-- `p.rfind(c)` as an optional index. -/
def lastIdxOf (c : Char) : List Char → Option Nat
  | [] => none
  | x :: t =>
    match lastIdxOf c t with
    | some i => some (i + 1)
    | none => if x = c then some 0 else none

/-- `posixpath.splitext` on the character list: split off the extension at
the last dot, unless the dot belongs to a leading run of dots of the base
name (CPython `genericpath._splitext`). -/
def pySplitextList (cs : List Char) : List Char × List Char :=
  match lastIdxOf '.' cs with
  | none => (cs, [])
  | some dotIdx =>
    let startIdx : Nat :=
      match lastIdxOf '/' cs with
      | none => 0
      | some i => i + 1
    if startIdx ≤ dotIdx ∧ ((cs.drop startIdx).take (dotIdx - startIdx)).any (fun c => c ≠ '.') then
      (cs.take dotIdx, cs.drop dotIdx)
    else (cs, [])

/-- `os.path.splitext` on strings. -/
def pySplitext (p : String) : String × String :=
  let r := pySplitextList p.toList
  (String.mk r.1, String.mk r.2)

/-! ## Data model (`parser.py` lines 15-36) -/

/-- `Status` enumeration (line 15). The spec's `Complete` is `OK`. -/
inductive Status where
  | OK
  | PARTIAL
  | SKIPPED
deriving DecidableEq, Repr

/-- `NamingScheme` enumeration (line 20). -/
inductive NamingScheme where
  | INVOICE_NUMBER
  | VENDOR_NAME
  | ORIGINAL_FILENAME
deriving DecidableEq, Repr

/-- A Python dict of extracted fields: association list from key to an
optional string.  An absent key and a key bound to `None` are both `none`
under lookup, matching `dict.get`. -/
abbrev FieldMap := List (String × Option String)

/-- `data.get(k)` / `data.get(k, '')` with falsy default: first binding of
the key, `none` when absent. -/
def pyGet (d : FieldMap) (k : String) : Option String :=
  match d with
  | [] => none
  | (k', v) :: t => if k' = k then v else pyGet t k

/-- Python `x or default` for an optional string (`None` and `""` are
falsy). -/
def pyOr (v : Option String) (dflt : String) : String :=
  match v with
  | none => dflt
  | some s => if s = "" then dflt else s

/-- `ParseResult` dataclass (line 25). -/
structure ParseResult where
  filename : String
  status : Status
  reason : String
  data : FieldMap
  proposed_filename : String := ""
  target_path : String := ""
deriving DecidableEq, Repr

/-! ## `sanitize_filename` (lines 135-139) -/

/-- The character class `ILLEGAL_CHARS = r'[\\/:*?"<>|]'` (line 36). -/
def isIllegalChar (c : Char) : Bool :=
  c = '\\' || c = '/' || c = ':' || c = '*' || c = '?' || c = '\"' ||
  c = '<' || c = '>' || c = '|'

/-- `re.sub(ILLEGAL_CHARS, '_', ·)` acts character-wise. -/
def replIllegal (c : Char) : Char :=
  if isIllegalChar c then '_' else c

/-- `sanitize_filename` (line 135): falsy input gives `"unknown"`,
otherwise replace illegal characters, strip, truncate to 200
(`MAX_FILENAME_LENGTH`, line 35). -/
def sanitizeFilename (name : Option String) : String :=
  match name with
  | none => "unknown"
  | some s =>
    if s = "" then "unknown"
    else String.mk ((pyStrip (s.toList.map replIllegal)).take 200)

/-! ## Date normalisation inside `generate_proposed_filename`
(lines 155-176) -/

/-- Gregorian leap year, as validated by `datetime`. -/
def isLeap (y : Nat) : Bool :=
  y % 4 = 0 && (y % 100 ≠ 0 || y % 400 = 0)

/-- Days in a month, as validated by `datetime`. -/
def daysInMonth (y m : Nat) : Nat :=
  if m = 2 then (if isLeap y then 29 else 28)
  else if m = 4 ∨ m = 6 ∨ m = 9 ∨ m = 11 then 30
  else 31

/-- Digit string to number (tokens below are all-digit). -/
def natOfDigits (cs : List Char) : Nat :=
  cs.foldl (fun n c => n * 10 + (c.toNat - 48)) 0

/-- `strptime` field `%Y`: exactly four digits. -/
def tokenYear (t : List Char) : Option Nat :=
  if t.length = 4 ∧ t.all Char.isDigit then some (natOfDigits t) else none

/-- `strptime` field `%m`: one or two digits with value 1-12. -/
def tokenMonth (t : List Char) : Option Nat :=
  if (t.length = 1 ∨ t.length = 2) ∧ t.all Char.isDigit ∧
      1 ≤ natOfDigits t ∧ natOfDigits t ≤ 12 then
    some (natOfDigits t)
  else none

/-- `strptime` field `%d`: one or two digits with value 1-31. -/
def tokenDay (t : List Char) : Option Nat :=
  if (t.length = 1 ∨ t.length = 2) ∧ t.all Char.isDigit ∧
      1 ≤ natOfDigits t ∧ natOfDigits t ≤ 31 then
    some (natOfDigits t)
  else none

/-- Component order of a three-field date format. -/
inductive DOrder where
  | ymd
  | mdy
  | dmy
deriving DecidableEq, Repr

/-- `datetime.strptime` against a three-field format with a single literal
separator: the whole string must split into exactly three tokens, each
token must satisfy its field pattern, and `datetime(y, m, d)` must not
raise (`1 ≤ y`, day within the month). -/
def strptime3 (sep : Char) (ord : DOrder) (cs : List Char) : Option (Nat × Nat × Nat) :=
  match splitSep sep cs with
  | [a, b, c] =>
    let toks :=
      match ord with
      | DOrder.ymd => (a, b, c)
      | DOrder.mdy => (c, a, b)
      | DOrder.dmy => (c, b, a)
    match tokenYear toks.1, tokenMonth toks.2.1, tokenDay toks.2.2 with
    | some y, some m, some d =>
      if 1 ≤ y ∧ d ≤ daysInMonth y m then some (y, m, d) else none
    | _, _, _ => none
  | _ => none

/-- The format ladder of line 162, tried in source order:
`'%Y-%m-%d', '%m/%d/%Y', '%d/%m/%Y', '%Y/%m/%d'`; first success wins. -/
def tryFormats (cs : List Char) : Option (Nat × Nat × Nat) :=
  match strptime3 '-' DOrder.ymd cs with
  | some r => some r
  | none =>
    match strptime3 '/' DOrder.mdy cs with
    | some r => some r
    | none =>
      match strptime3 '/' DOrder.dmy cs with
      | some r => some r
      | none => strptime3 '/' DOrder.ymd cs

/-- Zero-padded decimal rendering. -/
def padNum (width n : Nat) : List Char :=
  let ds := Nat.toDigits 10 n
  List.replicate (width - ds.length) '0' ++ ds

/-- `dt.strftime("%Y%m%d")` (line 165): eight-digit rendering. -/
def renderYYYYMMDD (y m d : Nat) : String :=
  String.mk (padNum 4 y ++ padNum 2 m ++ padNum 2 d)

/-- The date component of the proposed filename (lines 155-176): a falsy
date gives `""`; otherwise parse against the format ladder and render as
`YYYYMMDD`; if no format matches, strip non-digits (`re.sub(r'[^0-9]','')`)
and keep the first 8 digits provided at least 6 remain, else `""`. -/
def dateFormatted (rawDate : Option String) : String :=
  match rawDate with
  | none => ""
  | some raw =>
    if raw = "" then ""
    else
      match tryFormats raw.toList with
      | some (y, m, d) => renderYYYYMMDD y m d
      | none =>
        if 6 ≤ (raw.toList.filter Char.isDigit).length then
          String.mk ((raw.toList.filter Char.isDigit).take 8)
        else ""

/-! ## `generate_proposed_filename` (lines 141-199) -/

/-- `build_name(*parts)` (line 180): underscore-join the non-empty parts
and append `.pdf`. -/
def buildName (parts : List String) : String :=
  joinWith "_" (parts.filter (fun p => p ≠ "")) ++ ".pdf"

/-- `generate_proposed_filename` (line 141). -/
def generateProposedFilename (originalFilename : String) (data : FieldMap)
    (scheme : NamingScheme) : String :=
  match scheme with
  | NamingScheme.INVOICE_NUMBER =>
    if sanitizeFilename (pyGet data "invoice_number") ≠ "" ∧
        sanitizeFilename (pyGet data "invoice_number") ≠ "unknown" then
      buildName ["INV", sanitizeFilename (pyGet data "invoice_number"),
        dateFormatted (pyGet data "date")]
    else
      buildName ["INV_unknown", sanitizeFilename (some (pySplitext originalFilename).1)]
  | NamingScheme.VENDOR_NAME =>
    buildName [sanitizeFilename (some (pyOr (pyGet data "vendor") "Unknown_Vendor")),
      "INV", sanitizeFilename (pyGet data "invoice_number"),
      dateFormatted (pyGet data "date")]
  | NamingScheme.ORIGINAL_FILENAME =>
    if dateFormatted (pyGet data "date") ≠ "" then
      dateFormatted (pyGet data "date") ++ "_" ++
        sanitizeFilename (some (pySplitext originalFilename).1) ++ ".pdf"
    else sanitizeFilename (some (pySplitext originalFilename).1) ++ ".pdf"

/-! ## Field extraction regexes of `parse_invoice_data` (lines 55-109).
Each Python pattern is embedded as a matcher that attempts the pattern at
one start position; `reSearch` then scans positions left to right, giving
`re.search`'s leftmost-match semantics. -/

/-- `re.search`: try the position matcher at every start position, left to
right (including the empty suffix), returning the first success. -/
def reSearch (f : List Char → Option String) : List Char → Option String
  | [] => f []
  | c :: cs =>
    match f (c :: cs) with
    | some v => some v
    | none => reSearch f cs

/-- The token class `[A-Za-z0-9\-_/]` of the invoice-number capture. -/
def isInvTokenChar (c : Char) : Bool :=
  c.isAlpha || c.isDigit || c = '-' || c = '_' || c = '/'

/-- Tail `\s*[:\s]*\s*([A-Za-z0-9\-_/]{2,})` of invoice pattern 1: the
stars jointly consume any run over whitespace-or-colon (their classes are
disjoint from the capture class, so greedy maximal munch is exact), then
the capture takes the maximal token run, needing at least 2 characters. -/
def invTail (cs : List Char) : Option String :=
  let rest := cs.dropWhile (fun c => isPySpace c || c = ':')
  let tok := rest.takeWhile isInvTokenChar
  if 2 ≤ tok.length then some (String.mk tok) else none

/-- Alternation `(?:No\.?|Number|#)` (case-insensitive), alternatives in
source order, greedy optional dot first. -/
def invAlt (cs : List Char) : Option String :=
  match stripLitCI ['n', 'o'] cs with
  | some rest =>
    (match rest with
     | '.' :: rest2 =>
       (match invTail rest2 with
        | some v => some v
        | none => invTail rest)
     | _ => invTail rest)
  | none =>
    match stripLitCI ['n', 'u', 'm', 'b', 'e', 'r'] cs with
    | some rest => invTail rest
    | none =>
      match cs with
      | '#' :: rest => invTail rest
      | _ => none

/-- Invoice pattern 1 (line 64) at one position:
`(?:Invoice\s*(?:No\.?|Number|#)\s*[:\s]*)\s*([A-Za-z0-9\-_/]{2,})`,
`re.IGNORECASE`. -/
def invAt (cs : List Char) : Option String :=
  match stripLitCI ['i', 'n', 'v', 'o', 'i', 'c', 'e'] cs with
  | some rest => invAlt (rest.dropWhile isPySpace)
  | none => none

/-- Invoice pattern 2 (line 65) at one position: `#\s*(\d{4,})`. -/
def inv2At : List Char → Option String
  | '#' :: rest =>
    let tok := (rest.dropWhile isPySpace).takeWhile Char.isDigit
    if 4 ≤ tok.length then some (String.mk tok) else none
  | _ => none

/-- Rejected label values (line 71). -/
def rejectVals : List String := ["date", "no", "number"]

/-- ASCII lowercasing of a string (`str.lower`). -/
def pyLower (s : String) : String := String.mk (s.toList.map Char.toLower)

/-- The invoice-number loop (lines 67-73): try each pattern in order; a
match whose stripped value lowercases to a rejected label does not break
the loop. -/
def invoiceExtract (cs : List Char) : Option String :=
  match reSearch invAt cs with
  | some v =>
    if pyLower (String.mk (pyStrip v.toList)) ∈ rejectVals then
      (match reSearch inv2At cs with
       | some w =>
         if pyLower (String.mk (pyStrip w.toList)) ∈ rejectVals then none
         else some (String.mk (pyStrip w.toList))
       | none => none)
    else some (String.mk (pyStrip v.toList))
  | none =>
    match reSearch inv2At cs with
    | some w =>
      if pyLower (String.mk (pyStrip w.toList)) ∈ rejectVals then none
      else some (String.mk (pyStrip w.toList))
    | none => none

/-- The date separator class `[\/\-\.]`. -/
def isDateSep (c : Char) : Bool :=
  c = '/' || c = '-' || c = '.'

/-- Date pattern 1 (line 77) at one position:
`(?:Date)[\s:]*(\d{1,2}[\/\-\.]\d{1,2}[\/\-\.]\d{2,4})`.  Bounded greedy
digit repeats followed by a disjoint class force the digit runs to have
exactly the allowed lengths; the final `\d{2,4}` ends the pattern, so it
takes up to four digits of the run and needs at least two. -/
def d1At (cs : List Char) : Option String :=
  match stripLitCI ['d', 'a', 't', 'e'] cs with
  | none => none
  | some rest0 =>
    let rest := rest0.dropWhile (fun c => isPySpace c || c = ':')
    let t1 := rest.takeWhile Char.isDigit
    if t1.length = 0 ∨ 2 < t1.length then none
    else
      match rest.drop t1.length with
      | [] => none
      | s1 :: rest2 =>
        if !isDateSep s1 then none
        else
          let t2 := rest2.takeWhile Char.isDigit
          if t2.length = 0 ∨ 2 < t2.length then none
          else
            match rest2.drop t2.length with
            | [] => none
            | s2 :: rest3 =>
              if !isDateSep s2 then none
              else
                let t3 := rest3.takeWhile Char.isDigit
                if t3.length < 2 then none
                else some (String.mk (t1 ++ s1 :: t2 ++ s2 :: t3.take 4))

/-- Date pattern 2 (line 78) at one position:
`(\d{4}[\/\-\.]\d{1,2}[\/\-\.]\d{1,2})`; the exact `\d{4}` cannot give
characters back, so the leading digit run must have length exactly 4. -/
def d2At (cs : List Char) : Option String :=
  let t1 := cs.takeWhile Char.isDigit
  if t1.length ≠ 4 then none
  else
    match cs.drop 4 with
    | [] => none
    | s1 :: rest2 =>
      if !isDateSep s1 then none
      else
        let t2 := rest2.takeWhile Char.isDigit
        if t2.length = 0 ∨ 2 < t2.length then none
        else
          match rest2.drop t2.length with
          | [] => none
          | s2 :: rest3 =>
            if !isDateSep s2 then none
            else
              let t3 := rest3.takeWhile Char.isDigit
              if t3.length = 0 then none
              else some (String.mk (t1 ++ s1 :: t2 ++ s2 :: t3.take 2))

/-- Date pattern 3 (line 79) at one position:
`([A-Za-z]{3,9}\s+\d{1,2},?\s+\d{4})` (month-name dates). -/
def d3At (cs : List Char) : Option String :=
  let a := cs.takeWhile Char.isAlpha
  if a.length < 3 ∨ 9 < a.length then none
  else
    let rest := cs.drop a.length
    let w1 := rest.takeWhile isPySpace
    if w1.length = 0 then none
    else
      let rest2 := rest.drop w1.length
      let t1 := rest2.takeWhile Char.isDigit
      if t1.length = 0 ∨ 2 < t1.length then none
      else
        let rest3 := rest2.drop t1.length
        let comma : List Char := match rest3 with
          | ',' :: _ => [',']
          | _ => []
        let rest4 := rest3.drop comma.length
        let w2 := rest4.takeWhile isPySpace
        if w2.length = 0 then none
        else
          let t2 := (rest4.drop w2.length).takeWhile Char.isDigit
          if t2.length < 4 then none
          else some (String.mk (a ++ w1 ++ t1 ++ comma ++ w2 ++ t2.take 4))

/-- Separator normalisation of line 86:
`m.group(1).replace('/', '-').replace('.', '-')`. -/
def normDateSeps (s : String) : String :=
  String.mk (s.toList.map (fun c => if c = '/' ∨ c = '.' then '-' else c))

/-- The date loop (lines 81-89): patterns tried in order, first match is
normalised and breaks the loop. -/
def dateExtract (cs : List Char) : Option String :=
  match reSearch d1At cs with
  | some v => some (normDateSeps v)
  | none =>
    match reSearch d2At cs with
    | some v => some (normDateSeps v)
    | none =>
      match reSearch d3At cs with
      | some v => some (normDateSeps v)
      | none => none

/-- One scanning step of `re.findall(r'[\d,]+\.\d{2}', line)`: at each
position try the pattern (maximal digit-or-comma run, then a dot and two
digits); on success resume after the match, otherwise advance one
character.  The fuel is the remaining length, which bounds the number of
steps. -/
def amountScanAux : Nat → List Char → List String
  | 0, _ => []
  | _, [] => []
  | fuel + 1, c :: t =>
    let run := (c :: t).takeWhile (fun x => x.isDigit || x = ',')
    match (c :: t).drop run.length with
    | '.' :: d1 :: d2 :: rest =>
      if run.length ≠ 0 ∧ d1.isDigit ∧ d2.isDigit then
        String.mk (run ++ '.' :: [d1, d2]) :: amountScanAux fuel rest
      else amountScanAux fuel t
    | _ => amountScanAux fuel t

/-- `re.findall(r'[\d,]+\.\d{2}', line)` (line 97). -/
def amountScan (cs : List Char) : List String :=
  amountScanAux cs.length cs

/-- Line filter of line 95: `'total' in line.lower() and 'sub' not in
line.lower()`. -/
def totalLineQualifies (l : List Char) : Bool :=
  listContains ['t', 'o', 't', 'a', 'l'] (l.map Char.toLower) &&
  !listContains ['s', 'u', 'b'] (l.map Char.toLower)

/-- The total-amount loop (lines 93-100): first qualifying line whose
amount list is non-empty contributes its last amount. -/
def totalExtract : List (List Char) → Option String
  | [] => none
  | l :: rest =>
    if totalLineQualifies l then
      match (amountScan l).getLast? with
      | some a => some a
      | none => totalExtract rest
    else totalExtract rest

/-- Legal-entity keywords of line 103. -/
def vendorKeywords : List (List Char) :=
  [['i', 'n', 'c'], ['l', 'l', 'c'], ['l', 't', 'd'],
   ['g', 'm', 'b', 'h'], ['c', 'o', 'r', 'p']]

/-- The vendor loop (lines 104-107): first of the first five lines whose
lowercasing contains a keyword, stripped. -/
def vendorExtract (lines : List (List Char)) : Option String :=
  (lines.take 5).findSome? (fun l =>
    if vendorKeywords.any (fun k => listContains k (l.map Char.toLower)) then
      some (String.mk (pyStrip l))
    else none)

/-! ## `parse_invoice_data` (lines 55-109) -/

/-- The initial dict of line 60. -/
def initialFields : FieldMap :=
  [("invoice_number", none), ("date", none), ("total_amount", none), ("vendor", none)]

/-- Python dict assignment `d[k] = v` on an association list: update the
first binding of the key in place, append when absent. -/
def setKey : FieldMap → String → String → FieldMap
  | [], k, v => [(k, some v)]
  | (k', v') :: t, k, v =>
    if k' = k then (k, some v) :: t else (k', v') :: setKey t k v

/-- `if m: d[k] = extract` — assign only when the extractor matched. -/
def applyOpt (d : FieldMap) (k : String) (o : Option String) : FieldMap :=
  match o with
  | some v => setKey d k v
  | none => d

/-- `parse_invoice_data` (line 55): normalise carriage returns, then run
the four extractors over the text / its lines, assigning in source
order. -/
def parseInvoiceData (rawText : String) : FieldMap :=
  applyOpt
    (applyOpt
      (applyOpt
        (applyOpt initialFields
          "invoice_number" (invoiceExtract (pyReplaceCR rawText.toList)))
        "date" (dateExtract (pyReplaceCR rawText.toList)))
      "total_amount" (totalExtract (splitLines (pyReplaceCR rawText.toList))))
    "vendor" (vendorExtract (splitLines (pyReplaceCR rawText.toList)))

/-! ## Classification and `process_single_pdf` (lines 111-131) -/

/-- Python falsiness of an optional string (`not v`). -/
def isFalsy (v : Option String) : Bool :=
  match v with
  | none => true
  | some s => s = ""

/-- `missing = [k for k, v in data.items() if not v and k != 'vendor']`
(line 120). -/
def missingFields (d : FieldMap) : List String :=
  (d.filter (fun kv => isFalsy kv.2 && kv.1 != "vendor")).map Prod.fst

/-- The status/reason determination of lines 119-129. -/
def classify (d : FieldMap) : Status × String :=
  if missingFields d = [] then (Status.OK, "All fields found")
  else if (missingFields d).length < 3 then
    (Status.PARTIAL, "Missing: " ++ joinWith ", " (missingFields d))
  else (Status.PARTIAL, "Low confidence extraction")

/-- `process_single_pdf` (line 111), parametrised by the outcome of the
I/O call `extract_text_from_pdf` (`Except.error e` when it returned an
error message, `Except.ok text` otherwise). -/
def processSinglePdf (filename : String) (extraction : Except String String) : ParseResult :=
  match extraction with
  | Except.error err =>
    { filename := filename, status := Status.SKIPPED, reason := err, data := [] }
  | Except.ok text =>
    { filename := filename,
      status := (classify (parseInvoiceData text)).1,
      reason := (classify (parseInvoiceData text)).2,
      data := parseInvoiceData text }

/-! ## `calculate_target_path` (lines 201-229) -/

/-- Leftmost match of `re.search(r'20\d{2}', date_str)` at one position. -/
def yearAt : List Char → Option String
  | '2' :: '0' :: c :: d :: _ =>
    if c.isDigit && d.isDigit then some (String.mk ['2', '0', c, d]) else none
  | _ => none

/-- `re.search(r'20\d{2}', date_str)`: leftmost four-character match
beginning with `20`. -/
def findYear : List Char → Option String
  | [] => none
  | c :: rest =>
    match yearAt (c :: rest) with
    | some y => some y
    | none => findYear rest

/-- The time-bucket subfolder of lines 216-224.  A `None` date makes
`re.search` raise `TypeError`, which the surrounding `try/except` turns
into the `"Unknown_Date"` fallback, exactly as an absent key's default
`''` does; both are the `none` case here. -/
def bucketOf (data : FieldMap) : String :=
  match pyGet data "date" with
  | none => "Unknown_Date"
  | some ds =>
    match findYear ds.toList with
    | some y => y
    | none => "Unknown_Date"

/-- `calculate_target_path` (line 201): optional time bucket, then vendor
folder, then the filename, joined under the base output folder. -/
def calculateTargetPath (baseOutputFolder filename : String) (data : FieldMap)
    (organizeByMonth : Bool) : String :=
  pyJoin baseOutputFolder
    ((if organizeByMonth then [bucketOf data] else []) ++
      [sanitizeFilename (some (pyOr (pyGet data "vendor") "Unknown_Vendor")), filename])

/-! ## `get_safe_unique_path` (lines 231-242).  The filesystem is a fixed
list of existing paths; `os.path.exists` is membership.  The `while True`
loop is given explicit fuel; `none` means the loop was still running when
the fuel ran out. -/

/-- The candidate `f"{base}_{counter}{ext}"` of line 239. -/
def candidatePath (base ext : String) (k : Nat) : String :=
  base ++ "_" ++ Nat.repr k ++ ext

/-- The suffix-search loop of lines 237-242, starting at counter `k`. -/
def gsupLoop (fs : List String) (base ext : String) : Nat → Nat → Option String
  | _, 0 => none
  | k, fuel + 1 =>
    if candidatePath base ext k ∈ fs then gsupLoop fs base ext (k + 1) fuel
    else some (candidatePath base ext k)

/-- `get_safe_unique_path` (line 231). -/
def getSafeUniquePath (fs : List String) (fuel : Nat) (targetPath : String) : Option String :=
  if targetPath ∈ fs then
    gsupLoop fs (pySplitext targetPath).1 (pySplitext targetPath).2 1 fuel
  else some targetPath

/-- The test fixture of `tests/test_preview.py` and the spec's round-trip
examples. -/
def mockData : FieldMap :=
  [("invoice_number", some "INV-999"), ("date", some "2023-10-25"),
   ("vendor", some "Acme Corp"), ("total_amount", some "150.00")]

/-! ## Helper lemmas -/

/-- A list whose elements all satisfy `p` is consumed whole by
`dropWhile p`. -/
theorem dropWhile_all_nil (p : Char → Bool) :
    ∀ cs : List Char, cs.all p → cs.dropWhile p = [] := by
  intro cs h
  induction cs with
  | nil => rfl
  | cons c t ih =>
    simp only [List.all_cons, Bool.and_eq_true] at h
    simp only [List.dropWhile_cons, h.1, if_true]
    exact ih h.2

/-- Whitespace characters are not in the illegal-character class, so
`re.sub(ILLEGAL_CHARS, '_', ·)` leaves them unchanged. -/
theorem replIllegal_of_space (c : Char) (h : isPySpace c) : replIllegal c = c := by
  simp only [isPySpace, Bool.or_eq_true, decide_eq_true_eq] at h
  rcases h with ((((h | h) | h) | h) | h) | h <;> subst h <;> decide

/-- `"vendor"` is filtered out of the missing-field list by construction
(line 120's `k != 'vendor'`). -/
theorem vendor_not_missing (d : FieldMap) : "vendor" ∉ missingFields d := by
  intro h
  simp only [missingFields, List.mem_map] at h
  obtain ⟨kv, hmem, hfst⟩ := h
  rw [List.mem_filter] at hmem
  have h2 := hmem.2
  rw [hfst] at h2
  simp at h2

/-- A successful `findYear` is the leftmost position where the pattern
`20\d{2}` matches. -/
theorem findYear_some (cs : List Char) (y : String) (h : findYear cs = some y) :
    ∃ i, yearAt (cs.drop i) = some y ∧ ∀ j, j < i → yearAt (cs.drop j) = none := by
  induction cs with
  | nil => simp [findYear] at h
  | cons c rest ih =>
    simp only [findYear] at h
    cases hy : yearAt (c :: rest) with
    | some y' =>
      rw [hy] at h
      refine ⟨0, ?_, ?_⟩
      · simpa using hy.trans h
      · intro j hj; omega
    | none =>
      rw [hy] at h
      obtain ⟨i, h1, h2⟩ := ih h
      refine ⟨i + 1, h1, ?_⟩
      intro j hj
      cases j with
      | zero => exact hy
      | succ j' => exact h2 j' (by omega)

/-- When `findYear` fails, no position matches `20\d{2}`. -/
theorem findYear_none (cs : List Char) (h : findYear cs = none) :
    ∀ i, yearAt (cs.drop i) = none := by
  induction cs with
  | nil => intro i; rw [List.drop_nil]; rfl
  | cons c rest ih =>
    simp only [findYear] at h
    cases hy : yearAt (c :: rest) with
    | some y' => rw [hy] at h; exact absurd h (by simp)
    | none =>
      rw [hy] at h
      intro i
      cases i with
      | zero => exact hy
      | succ i' => exact ih h i'

/-- A `yearAt` match is a four-character string beginning `20`. -/
theorem yearAt_shape (cs : List Char) (y : String) (h : yearAt cs = some y) :
    y.length = 4 ∧ y.toList.take 2 = ['2', '0'] := by
  unfold yearAt at h
  split at h
  · split at h
    · cases h; exact ⟨rfl, rfl⟩
    · exact absurd h (by simp)
  · exact absurd h (by simp)

/-- The suffix-search loop never returns a path that exists. -/
theorem gsupLoop_not_mem (fs : List String) (base ext : String) :
    ∀ fuel k r, gsupLoop fs base ext k fuel = some r → r ∉ fs := by
  intro fuel
  induction fuel with
  | zero => intro k r h; simp [gsupLoop] at h
  | succ n ih =>
    intro k r h
    simp only [gsupLoop] at h
    by_cases hc : candidatePath base ext k ∈ fs
    · rw [if_pos hc] at h; exact ih _ _ h
    · rw [if_neg hc] at h; cases h; exact hc

/-- With every counter below `k0` taken and `k0` free, the loop run from
counter `k` with enough fuel stops exactly at `k0`. -/
theorem gsupLoop_finds (fs : List String) (base ext : String) :
    ∀ fuel k k0, k ≤ k0 → candidatePath base ext k0 ∉ fs →
      (∀ j, k ≤ j → j < k0 → candidatePath base ext j ∈ fs) →
      k0 < k + fuel →
      gsupLoop fs base ext k fuel = some (candidatePath base ext k0) := by
  intro fuel
  induction fuel with
  | zero => intro k k0 h1 _ _ h4; omega
  | succ n ih =>
    intro k k0 h1 h2 h3 h4
    simp only [gsupLoop]
    rcases Nat.lt_or_ge k k0 with hk | hk
    · rw [if_pos (h3 k le_rfl hk)]
      exact ih (k + 1) k0 hk h2 (fun j hj1 hj2 => h3 j (by omega) hj2) (by omega)
    · have hkk : k = k0 := le_antisymm h1 hk
      subst hkk
      rw [if_neg h2]

/-- `get_safe_unique_path` never returns a path that exists. -/
theorem getSafeUniquePath_not_mem (fs : List String) (fuel : Nat) (t r : String)
    (h : getSafeUniquePath fs fuel t = some r) : r ∉ fs := by
  unfold getSafeUniquePath at h
  by_cases ht : t ∈ fs
  · rw [if_pos ht] at h
    exact gsupLoop_not_mem fs _ _ fuel 1 r h
  · rw [if_neg ht] at h
    cases h
    exact ht

/-! ## Claim theorems -/

/-- C1: For every field map produced from readable text, classification by
`process_single_pdf` follows: no missing required field gives status
`OK`/Complete with reason "All fields found"; one or two missing give
`PARTIAL` with a reason listing exactly the missing field names; three
missing give `PARTIAL` with reason "Low confidence extraction"; the vendor
field never counts as missing, and missing fields alone never yield
`SKIPPED`. -/
theorem claim1_classification (fn text : String) :
    (processSinglePdf fn (Except.ok text)).data = parseInvoiceData text ∧
    "vendor" ∉ missingFields (parseInvoiceData text) ∧
    (processSinglePdf fn (Except.ok text)).status ≠ Status.SKIPPED ∧
    (missingFields (parseInvoiceData text) = [] →
      (processSinglePdf fn (Except.ok text)).status = Status.OK ∧
      (processSinglePdf fn (Except.ok text)).reason = "All fields found") ∧
    (missingFields (parseInvoiceData text) ≠ [] →
      (missingFields (parseInvoiceData text)).length < 3 →
      (processSinglePdf fn (Except.ok text)).status = Status.PARTIAL ∧
      (processSinglePdf fn (Except.ok text)).reason =
        "Missing: " ++ joinWith ", " (missingFields (parseInvoiceData text))) ∧
    ((missingFields (parseInvoiceData text)).length = 3 →
      (processSinglePdf fn (Except.ok text)).status = Status.PARTIAL ∧
      (processSinglePdf fn (Except.ok text)).reason = "Low confidence extraction") := by
  refine ⟨rfl, vendor_not_missing _, ?_, ?_, ?_, ?_⟩
  · show (classify (parseInvoiceData text)).1 ≠ Status.SKIPPED
    unfold classify
    split_ifs <;> exact fun hctr => Status.noConfusion hctr
  · intro h
    have hc : classify (parseInvoiceData text) = (Status.OK, "All fields found") := by
      unfold classify; rw [if_pos h]
    exact ⟨congrArg Prod.fst hc, congrArg Prod.snd hc⟩
  · intro h1 h2
    have hc : classify (parseInvoiceData text) =
        (Status.PARTIAL, "Missing: " ++ joinWith ", " (missingFields (parseInvoiceData text))) := by
      unfold classify; rw [if_neg h1, if_pos h2]
    exact ⟨congrArg Prod.fst hc, congrArg Prod.snd hc⟩
  · intro h
    have h1 : missingFields (parseInvoiceData text) ≠ [] := by
      intro he; rw [he] at h; simp at h
    have h2 : ¬(missingFields (parseInvoiceData text)).length < 3 := by omega
    have hc : classify (parseInvoiceData text) =
        (Status.PARTIAL, "Low confidence extraction") := by
      unfold classify; rw [if_neg h1, if_neg h2]
    exact ⟨congrArg Prod.fst hc, congrArg Prod.snd hc⟩

/-- Witness for C1 at concrete texts: an empty text misses all three
required fields, `"Invoice # 12345"` misses two, and a text carrying
invoice number, date and total misses none. -/
theorem claim1_classification_witness :
    ((processSinglePdf "a.pdf" (Except.ok "")).status = Status.PARTIAL ∧
      (processSinglePdf "a.pdf" (Except.ok "")).reason = "Low confidence extraction") ∧
    ((processSinglePdf "b.pdf" (Except.ok "Invoice # 12345")).status = Status.PARTIAL ∧
      (processSinglePdf "b.pdf" (Except.ok "Invoice # 12345")).reason =
        "Missing: date, total_amount") ∧
    ((processSinglePdf "c.pdf"
        (Except.ok "Invoice #9999\nDate: 12/31/2023\nTotal: 1,234.56")).status = Status.OK ∧
      (processSinglePdf "c.pdf"
        (Except.ok "Invoice #9999\nDate: 12/31/2023\nTotal: 1,234.56")).reason =
        "All fields found") := by
  have h1 := (claim1_classification "a.pdf" "").2.2.2.2.2 (by decide)
  have h2 := (claim1_classification "b.pdf" "Invoice # 12345").2.2.2.2.1 (by decide) (by decide)
  have h3 := (claim1_classification "c.pdf"
    "Invoice #9999\nDate: 12/31/2023\nTotal: 1,234.56").2.2.2.1 (by decide)
  exact ⟨h1, ⟨h2.1, h2.2.trans (by decide)⟩, h3⟩

/-- C2: a document whose text extraction fails yields a `ParseResult` with
status `SKIPPED`, the extraction error message as reason, and an empty
field map. -/
theorem claim2_skip_on_error (fn err : String) :
    processSinglePdf fn (Except.error err) =
      { filename := fn, status := Status.SKIPPED, reason := err, data := [],
        proposed_filename := "", target_path := "" } := rfl

/-- C3: the filename date component tries the formats
`%Y-%m-%d`, `%m/%d/%Y`, `%d/%m/%Y`, `%Y/%m/%d` in order against the raw
date string and renders the first successful parse as the 8-digit
`YYYYMMDD`; when none parses, non-digits are stripped and the first 8
digits are kept provided at least 6 remain; otherwise the component is
empty. -/
theorem claim3_date_component :
    (∀ (s : String) (y m d : Nat), tryFormats s.toList = some (y, m, d) →
      dateFormatted (some s) = renderYYYYMMDD y m d) ∧
    (∀ s : String, tryFormats s.toList = none →
      dateFormatted (some s) =
        (if 6 ≤ (s.toList.filter Char.isDigit).length then
          String.mk ((s.toList.filter Char.isDigit).take 8) else "")) ∧
    dateFormatted none = "" ∧
    dateFormatted (some "2023-10-25") = "20231025" ∧
    dateFormatted (some "10/25/2023") = "20231025" ∧
    dateFormatted (some "25/10/2023") = "20231025" ∧
    dateFormatted (some "2023/10/25") = "20231025" ∧
    dateFormatted (some "2024-02-29") = "20240229" ∧
    dateFormatted (some "2023-02-29") = "20230229" ∧
    dateFormatted (some "Oct 25, 2023") = "252023" ∧
    dateFormatted (some "1-2") = "" := by
  refine ⟨?_, ?_, rfl, by decide, by decide, by decide, by decide, by decide,
    by decide, by decide, by decide⟩
  · intro s y m d h
    by_cases hs : s = ""
    · subst hs
      rw [show tryFormats ("" : String).toList = none from rfl] at h
      exact Option.noConfusion h
    · simp only [dateFormatted]
      rw [if_neg hs, h]
  · intro s h
    by_cases hs : s = ""
    · subst hs; decide
    · simp only [dateFormatted]
      rw [if_neg hs, h]

/-- Witness for C3: a leap-day date parses via the format ladder, while
`"3/1/12"` (two-digit year) matches no format and falls back to the
digit heuristic. -/
theorem claim3_date_component_witness :
    dateFormatted (some "2024-02-29") = renderYYYYMMDD 2024 2 29 ∧
    dateFormatted (some "3/1/12") =
      (if 6 ≤ (("3/1/12" : String).toList.filter Char.isDigit).length then
        String.mk ((("3/1/12" : String).toList.filter Char.isDigit).take 8) else "") :=
  ⟨claim3_date_component.1 "2024-02-29" 2024 2 29 (by decide),
   claim3_date_component.2.1 "3/1/12" (by decide)⟩

/-- C8: for every input text, `parse_invoice_data` returns a field map
with exactly the four keys `invoice_number`, `date`, `total_amount`,
`vendor`, in that order, each value an optional string. -/
theorem claim8_parse_keys (text : String) :
    (parseInvoiceData text).map Prod.fst =
      ["invoice_number", "date", "total_amount", "vendor"] := by
  unfold parseInvoiceData
  generalize invoiceExtract (pyReplaceCR text.toList) = o1
  generalize dateExtract (pyReplaceCR text.toList) = o2
  generalize totalExtract (splitLines (pyReplaceCR text.toList)) = o3
  generalize vendorExtract (splitLines (pyReplaceCR text.toList)) = o4
  cases o1 <;> cases o2 <;> cases o3 <;> cases o4 <;> rfl

/-- C4 counterexample: a whitespace-only invoice number sanitizes to `""`
(which differs from the placeholder `"unknown"`), yet the code takes the
`INV_unknown_<base>` branch — `if inv and inv != "unknown"` also requires
non-emptiness — so the output is not the `INV_<invoice>_<date>` join the
claim predicts for every non-`"unknown"` sanitization. -/
theorem claim4_counterexample :
    sanitizeFilename (some " ") ≠ "unknown" ∧
    generateProposedFilename "scan001.pdf" [("invoice_number", some " ")]
      NamingScheme.INVOICE_NUMBER = "INV_unknown_scan001.pdf" ∧
    generateProposedFilename "scan001.pdf" [("invoice_number", some " ")]
      NamingScheme.INVOICE_NUMBER ≠
      buildName ["INV", sanitizeFilename (some " "),
        dateFormatted (pyGet [("invoice_number", some " ")] "date")] := by
  decide

/-- C4 (amended): under the `InvoiceNumber` scheme the result is
`INV_<sanitized invoice>_<date component>.pdf` (empty parts omitted from
the underscore join) whenever the invoice number sanitizes to a
*non-empty* string other than `"unknown"`, and
`INV_unknown_<sanitized original base name>.pdf` otherwise; on the spec's
round-trip input the result is exactly `INV_INV-999_20231025.pdf`. -/
theorem claim4_invoice_scheme_amended :
    (∀ (orig : String) (data : FieldMap),
      (sanitizeFilename (pyGet data "invoice_number") ≠ "" →
        sanitizeFilename (pyGet data "invoice_number") ≠ "unknown" →
        generateProposedFilename orig data NamingScheme.INVOICE_NUMBER =
          buildName ["INV", sanitizeFilename (pyGet data "invoice_number"),
            dateFormatted (pyGet data "date")]) ∧
      (sanitizeFilename (pyGet data "invoice_number") = "" ∨
          sanitizeFilename (pyGet data "invoice_number") = "unknown" →
        generateProposedFilename orig data NamingScheme.INVOICE_NUMBER =
          buildName ["INV_unknown", sanitizeFilename (some (pySplitext orig).1)])) ∧
    generateProposedFilename "scan001.pdf" mockData NamingScheme.INVOICE_NUMBER =
      "INV_INV-999_20231025.pdf" := by
  refine ⟨fun orig data => ⟨?_, ?_⟩, by decide⟩
  · intro h1 h2
    simp only [generateProposedFilename]
    rw [if_pos ⟨h1, h2⟩]
  · intro h
    have hn : ¬(sanitizeFilename (pyGet data "invoice_number") ≠ "" ∧
        sanitizeFilename (pyGet data "invoice_number") ≠ "unknown") := by
      rintro ⟨g1, g2⟩
      rcases h with h | h
      · exact g1 h
      · exact g2 h
    simp only [generateProposedFilename]
    rw [if_neg hn]

/-- Witness for C4 (amended): the round-trip input has a non-empty,
non-placeholder invoice number, and a `None` invoice number falls into
the `INV_unknown` branch. -/
theorem claim4_invoice_scheme_amended_witness :
    generateProposedFilename "scan001.pdf" mockData NamingScheme.INVOICE_NUMBER =
      buildName ["INV", sanitizeFilename (pyGet mockData "invoice_number"),
        dateFormatted (pyGet mockData "date")] ∧
    generateProposedFilename "my_scan.pdf"
      [("invoice_number", none), ("date", none), ("vendor", none)]
      NamingScheme.INVOICE_NUMBER =
      buildName ["INV_unknown", sanitizeFilename (some (pySplitext "my_scan.pdf").1)] :=
  ⟨(claim4_invoice_scheme_amended.1 "scan001.pdf" mockData).1 (by decide) (by decide),
   (claim4_invoice_scheme_amended.1 "my_scan.pdf"
      [("invoice_number", none), ("date", none), ("vendor", none)]).2 (Or.inr (by decide))⟩

/-- C5: under the `VendorName` scheme the result is always the
underscore-join (empty parts omitted) of the vendor component (sanitized
vendor, with the `"Unknown_Vendor"` fallback for a falsy vendor), `INV`,
the sanitized invoice number and the date component; sanitization of a
non-empty string only replaces the illegal characters (space is not one),
and the spec's round-trip input yields exactly
`Acme Corp_INV_INV-999_20231025.pdf`. -/
theorem claim5_vendor_scheme :
    (∀ (orig : String) (data : FieldMap),
      generateProposedFilename orig data NamingScheme.VENDOR_NAME =
        buildName [sanitizeFilename (some (pyOr (pyGet data "vendor") "Unknown_Vendor")),
          "INV", sanitizeFilename (pyGet data "invoice_number"),
          dateFormatted (pyGet data "date")]) ∧
    (∀ s : String, s ≠ "" →
      sanitizeFilename (some s) = String.mk ((pyStrip (s.toList.map replIllegal)).take 200)) ∧
    (∀ c : Char, isIllegalChar c = false → replIllegal c = c) ∧
    isIllegalChar ' ' = false ∧
    generateProposedFilename "scan001.pdf" mockData NamingScheme.VENDOR_NAME =
      "Acme Corp_INV_INV-999_20231025.pdf" := by
  refine ⟨fun orig data => rfl, ?_, ?_, rfl, by decide⟩
  · intro s hs
    simp only [sanitizeFilename]
    rw [if_neg hs]
  · intro c hc
    simp [replIllegal, hc]

/-- Witness for C5: the vendor string of the round-trip input sanitizes
to itself, its interior space intact. -/
theorem claim5_vendor_scheme_witness :
    sanitizeFilename (some "Acme Corp") =
      String.mk ((pyStrip (("Acme Corp" : String).toList.map replIllegal)).take 200) ∧
    replIllegal ' ' = ' ' :=
  ⟨claim5_vendor_scheme.2.1 "Acme Corp" (by decide),
   claim5_vendor_scheme.2.2.1 ' ' (by decide)⟩

/-- C6: `calculate_target_path` always returns
`<base>/[<bucket>/]<vendor>/<filename>` with the vendor segment always
present (sanitized vendor or `"Unknown_Vendor"`) and the bucket segment
present exactly when the time-bucket flag is set; the bucket is the
leftmost four-character `20\d{2}` match of the raw date string — a
calendar year only — or `"Unknown_Date"` when there is none. -/
theorem claim6_target_path :
    (∀ (base fn : String) (data : FieldMap) (flag : Bool),
      calculateTargetPath base fn data flag =
        pyJoin base ((if flag then [bucketOf data] else []) ++
          [sanitizeFilename (some (pyOr (pyGet data "vendor") "Unknown_Vendor")), fn])) ∧
    (∀ (s : String) (y : String), findYear s.toList = some y →
      y.length = 4 ∧ y.toList.take 2 = ['2', '0'] ∧
        ∃ i, yearAt (s.toList.drop i) = some y ∧
          ∀ j, j < i → yearAt (s.toList.drop j) = none) ∧
    (∀ s : String, findYear s.toList = none → ∀ i, yearAt (s.toList.drop i) = none) ∧
    (∀ (data : FieldMap) (s : String), pyGet data "date" = some s →
      findYear s.toList = none → bucketOf data = "Unknown_Date") ∧
    calculateTargetPath "/Out" "file.pdf"
      [("date", some "2023-10-25"), ("vendor", some "Acme Corp")] true =
      "/Out/2023/Acme Corp/file.pdf" ∧
    calculateTargetPath "/Out" "file.pdf"
      [("date", some "2023-10-25"), ("vendor", some "Acme Corp")] false =
      "/Out/Acme Corp/file.pdf" := by
  refine ⟨fun base fn data flag => rfl, ?_, ?_, ?_, by decide, by decide⟩
  · intro s y h
    obtain ⟨i, h1, h2⟩ := findYear_some s.toList y h
    obtain ⟨hl, hp⟩ := yearAt_shape (s.toList.drop i) y h1
    exact ⟨hl, hp, i, h1, h2⟩
  · exact fun s h => findYear_none s.toList h
  · intro data s h1 h2
    unfold bucketOf
    rw [h1]
    show (match findYear s.toList with
      | some y => y
      | none => "Unknown_Date") = "Unknown_Date"
    rw [h2]

/-- Witness for C6: in `"a20231025"` the year pattern matches leftmost at
position 1, and a digit-free date string gives the `"Unknown_Date"`
bucket. -/
theorem claim6_target_path_witness :
    (("2023" : String).length = 4 ∧ ("2023" : String).toList.take 2 = ['2', '0'] ∧
      ∃ i, yearAt (("a20231025" : String).toList.drop i) = some "2023" ∧
        ∀ j, j < i → yearAt (("a20231025" : String).toList.drop j) = none) ∧
    bucketOf [("date", some "no digits here")] = "Unknown_Date" :=
  ⟨claim6_target_path.2.1 "a20231025" "2023" (by decide),
   claim6_target_path.2.2.2.1 [("date", some "no digits here")] "no digits here"
     (by decide) (by decide)⟩

/-- C7: against a fixed set of existing paths, `get_safe_unique_path`
returns its input unchanged when it does not exist; otherwise it returns
the path with `_k` inserted before the extension for the smallest
positive `k` whose candidate is free (given fuel at least `k`); the
result never exists, the function is idempotent on its own result, and
the search terminates whenever some suffix is free. -/
theorem claim7_unique_path :
    (∀ (fs : List String) (fuel : Nat) (t : String), t ∉ fs →
      getSafeUniquePath fs fuel t = some t) ∧
    (∀ (fs : List String) (fuel : Nat) (t : String) (k0 : Nat), t ∈ fs → 1 ≤ k0 →
      candidatePath (pySplitext t).1 (pySplitext t).2 k0 ∉ fs →
      (∀ j, 1 ≤ j → j < k0 → candidatePath (pySplitext t).1 (pySplitext t).2 j ∈ fs) →
      k0 ≤ fuel →
      getSafeUniquePath fs fuel t =
        some (candidatePath (pySplitext t).1 (pySplitext t).2 k0)) ∧
    (∀ (fs : List String) (fuel : Nat) (t r : String),
      getSafeUniquePath fs fuel t = some r → r ∉ fs) ∧
    (∀ (fs : List String) (fuel fuel' : Nat) (t r : String),
      getSafeUniquePath fs fuel t = some r → getSafeUniquePath fs fuel' r = some r) ∧
    (∀ (fs : List String) (t : String),
      (∃ k, 1 ≤ k ∧ candidatePath (pySplitext t).1 (pySplitext t).2 k ∉ fs) →
      ∃ fuel r, getSafeUniquePath fs fuel t = some r) := by
  have hfree : ∀ (fs : List String) (fuel : Nat) (t : String), t ∉ fs →
      getSafeUniquePath fs fuel t = some t := by
    intro fs fuel t ht
    unfold getSafeUniquePath
    rw [if_neg ht]
  have hleast : ∀ (fs : List String) (fuel : Nat) (t : String) (k0 : Nat), t ∈ fs → 1 ≤ k0 →
      candidatePath (pySplitext t).1 (pySplitext t).2 k0 ∉ fs →
      (∀ j, 1 ≤ j → j < k0 → candidatePath (pySplitext t).1 (pySplitext t).2 j ∈ fs) →
      k0 ≤ fuel →
      getSafeUniquePath fs fuel t =
        some (candidatePath (pySplitext t).1 (pySplitext t).2 k0) := by
    intro fs fuel t k0 ht hk0 hfreek hbusy hfuel
    unfold getSafeUniquePath
    rw [if_pos ht]
    exact gsupLoop_finds fs _ _ fuel 1 k0 hk0 hfreek (fun j h1 h2 => hbusy j h1 h2) (by omega)
  refine ⟨hfree, hleast, getSafeUniquePath_not_mem, ?_, ?_⟩
  · intro fs fuel fuel' t r h
    exact hfree fs fuel' r (getSafeUniquePath_not_mem fs fuel t r h)
  · intro fs t hex
    by_cases ht : t ∈ fs
    · have hexQ : ∃ k, 1 ≤ k ∧ candidatePath (pySplitext t).1 (pySplitext t).2 k ∉ fs := hex
      classical
      obtain ⟨k, hk1, hk2⟩ := hexQ
      obtain ⟨k0, hk0⟩ := Nat.findX (p := fun n =>
        1 ≤ n ∧ candidatePath (pySplitext t).1 (pySplitext t).2 n ∉ fs) ⟨k, hk1, hk2⟩
      refine ⟨k0, candidatePath (pySplitext t).1 (pySplitext t).2 k0,
        hleast fs k0 t k0 ht hk0.1.1 hk0.1.2 ?_ le_rfl⟩
      intro j hj1 hj2
      have := hk0.2 j hj2
      by_contra hmem
      exact this ⟨hj1, hmem⟩
    · exact ⟨0, t, hfree fs 0 t ht⟩

/-- Witness for C7: `/out/a.pdf` and its `_1` variant exist, so the least
free suffix is `_2`. -/
theorem claim7_unique_path_witness :
    getSafeUniquePath ["/out/a.pdf", "/out/a_1.pdf"] 2 "/out/a.pdf" = some "/out/a_2.pdf" := by
  have h := claim7_unique_path.2.1 ["/out/a.pdf", "/out/a_1.pdf"] 2 "/out/a.pdf" 2
    (by decide) (by decide) (by decide)
    (fun j hj1 hj2 => by
      have hj : j = 1 := by omega
      subst hj
      decide)
    (by decide)
  exact h.trans (by decide)

/-- C9 counterexample: the non-empty input `"unknown"` also makes
`sanitize_filename` return the literal `"unknown"`, so the literal is not
returned *only* for absent or zero-length inputs. -/
theorem claim9_counterexample :
    ("unknown" : String) ≠ "" ∧ sanitizeFilename (some "unknown") = "unknown" := by
  decide

/-- C9 (amended): `sanitize_filename` returns `"unknown"` for an absent
or zero-length input; every non-empty input instead goes through
replace-strip-truncate (which may itself produce the literal, e.g. on the
input `"unknown"`); in particular a non-empty whitespace-only input
yields the empty string, not `"unknown"`, because the strip happens after
illegal-character replacement. -/
theorem claim9_sanitize_amended :
    sanitizeFilename none = "unknown" ∧
    sanitizeFilename (some "") = "unknown" ∧
    (∀ s : String, s ≠ "" →
      sanitizeFilename (some s) = String.mk ((pyStrip (s.toList.map replIllegal)).take 200)) ∧
    (∀ s : String, s ≠ "" → s.toList.all isPySpace →
      sanitizeFilename (some s) = "") := by
  refine ⟨rfl, rfl, ?_, ?_⟩
  · intro s hs
    simp only [sanitizeFilename]
    rw [if_neg hs]
  · intro s hs hall
    simp only [sanitizeFilename]
    rw [if_neg hs]
    have hmap : s.toList.map replIllegal = s.toList := by
      have : s.toList.map replIllegal = s.toList.map id := by
        refine List.map_congr_left ?_
        intro c hc
        exact replIllegal_of_space c (by
          have := List.all_eq_true.mp hall c hc
          simpa using this)
      simpa using this
    rw [hmap]
    unfold pyStrip
    rw [dropWhile_all_nil isPySpace s.toList hall]
    rfl

/-- Witness for C9 (amended): a single space is non-empty yet sanitizes
to the empty string. -/
theorem claim9_sanitize_amended_witness :
    sanitizeFilename (some " ") = "" :=
  claim9_sanitize_amended.2.2.2 " " (by decide) (by decide)

/-- C10: with the time-bucket flag set and the date field absent or
`None`, `calculate_target_path` still returns normally and the bucket
falls back to the literal `"Unknown_Date"` (the `TypeError` a `None`
date raises inside `re.search` is swallowed by the `try/except`). -/
theorem claim10_missing_date_bucket (base fn : String) (data : FieldMap)
    (h : pyGet data "date" = none) :
    bucketOf data = "Unknown_Date" ∧
    calculateTargetPath base fn data true =
      pyJoin base ["Unknown_Date",
        sanitizeFilename (some (pyOr (pyGet data "vendor") "Unknown_Vendor")), fn] := by
  have hb : bucketOf data = "Unknown_Date" := by
    unfold bucketOf
    rw [h]
  refine ⟨hb, ?_⟩
  unfold calculateTargetPath
  rw [hb]
  rfl

/-- Witness for C10: the empty field map has no date binding. -/
theorem claim10_missing_date_bucket_witness :
    bucketOf [] = "Unknown_Date" ∧
    calculateTargetPath "/Out" "f.pdf" [] true =
      pyJoin "/Out" ["Unknown_Date",
        sanitizeFilename (some (pyOr (pyGet [] "vendor") "Unknown_Vendor")), "f.pdf"] :=
  claim10_missing_date_bucket "/Out" "f.pdf" [] rfl

end Invfrog

